import Mathlib

/-!
Verification of the code25 repository: two standalone C++ unit tests,
src/code/001_memory_sizes.cpp (primitive type-size assertions) and
src/code/002_explicit_ctr.cpp (constructor explicitness with a
std::vector of Widget).  The data model, the insertion operations and
the test scenarios are embedded shallowly below, and the spec claims
are settled as theorems about that embedding.
-/

/-! ## Primitive type widths, src/code/001_memory_sizes.cpp -/

/-- The four primitive value types whose storage widths the test
MemoryTests.TypeSizeAsserts checks. -/
inductive CType where
  | char
  | int
  | long
  | double
deriving DecidableEq, Repr

/-- Modelled from the spec: width in bits of each primitive type on the
target data layout.  The source calls the compiler builtin sizeof, which
is the platform data-layout contract rather than code under src/; the
spec fixes the platform-standard LP64 widths: an 8-bit char, a 32-bit
int, a 64-bit long and an IEEE-754 binary64 double. -/
def bitWidth : CType → Nat
  | .char => 8
  | .int => 32
  | .long => 64
  | .double => 64

/-- sizeof in bytes: the bit width divided by the 8-bit byte. -/
def sizeofBytes (t : CType) : Nat := bitWidth t / 8

/-! ## The assertion machinery (GoogleTest ASSERT_EQ) -/

/-- Modelled from the spec: one ASSERT_EQ statement, carrying the
expected and the actual value being compared.  The GoogleTest framework
itself is not under src/; the spec says a failure is reported with the
concrete expected and actual values. -/
structure Assertion where
  expected : Int
  actual : Int
deriving DecidableEq, Repr

/-- An assertion passes when the two compared values are equal. -/
def Assertion.passes (a : Assertion) : Bool := a.expected == a.actual

/-- Modelled from the spec: the outcome of running one test case, either
a pass or a failure report naming the index of the failing assertion and
its concrete expected and actual values. -/
inductive TestResult where
  | passed
  | failedAt (idx : Nat) (expected actual : Int)
deriving DecidableEq, Repr

/-- Modelled from the spec: run the assertions of one test case in
order, starting at index k.  ASSERT_EQ semantics: the first mismatch
stops the current test case and is reported with its expected and
actual values. -/
def runAsserts : Nat → List Assertion → TestResult
  | _, [] => .passed
  | k, a :: rest =>
      if a.passes then runAsserts (k + 1) rest
      else .failedAt k a.expected a.actual

/-- Run one test case from its first assertion. -/
def runTestCase (assertions : List Assertion) : TestResult :=
  runAsserts 0 assertions

/-- Modelled from the spec: the test runner executes every test case of
the suite independently, so a failure in one case never aborts the
others. -/
def runSuite (suite : List (List Assertion)) : List TestResult :=
  suite.map runTestCase

/-- The four assertions of MemoryTests.TypeSizeAsserts, lines 4-7 of
src/code/001_memory_sizes.cpp: sizeof(char) == 1, sizeof(int) == 4,
sizeof(long) == 8, sizeof(double) == 8. -/
def typeSizeAsserts : List Assertion :=
  [ ⟨(sizeofBytes .char : Int), 1⟩,
    ⟨(sizeofBytes .int : Int), 4⟩,
    ⟨(sizeofBytes .long : Int), 8⟩,
    ⟨(sizeofBytes .double : Int), 8⟩ ]

/-! ## Widget and the vector operations, src/code/002_explicit_ctr.cpp -/

/-- The Widget class of src/code/002_explicit_ctr.cpp: two private int
fields i_ and j_.  The one-argument constructor initializes only i_, so
j_ may be left uninitialized; an uninitialized (indeterminate) field is
modelled as none. -/
structure Widget where
  i_ : Int
  j_ : Option Int
deriving DecidableEq, Repr

/-- Line 9: Widget(int i) : i_(i) — initializes i_ from the argument and
leaves j_ uninitialized. -/
def Widget.ctor1 (i : Int) : Widget := ⟨i, none⟩

/-- Line 10: explicit Widget(int i, int j) : i_(i), j_(j) — initializes
both fields. -/
def Widget.ctor2 (i j : Int) : Widget := ⟨i, some j⟩

/-- Whether Widget has a constructor of the given arity and, if so,
whether that constructor is marked explicit: the one-argument
constructor (line 9) is not explicit, the two-argument constructor
(line 10) is explicit, and no other arity has a constructor. -/
def Widget.ctorExplicit : Nat → Option Bool
  | 1 => some false
  | 2 => some true
  | _ => none

/-- The vector-insertion call sites appearing in the test body, as
written at lines 15-23: emplace_back with a list of bare int arguments,
push_back with a list of bare int arguments (requiring an implicit
conversion to Widget), and push_back of an already constructed Widget
value. -/
inductive Op where
  | emplaceBack (args : List Int)
  | pushBackBare (args : List Int)
  | pushBackValue (w : Widget)
deriving DecidableEq, Repr

/-- Compile-time acceptance of a call site.  emplace_back forwards its
arguments directly to a Widget constructor, so it compiles whenever a
constructor of that arity exists, explicit or not.  push_back takes
exactly one parameter of type Widget, so bare arguments compile only
when there is exactly one of them and the one-argument constructor is
available for the implicit conversion, i.e. not explicit.  push_back of
a constructed Widget value always compiles. -/
def Op.compiles : Op → Bool
  | .emplaceBack args => (Widget.ctorExplicit args.length).isSome
  | .pushBackBare args =>
      args.length == 1 && (Widget.ctorExplicit args.length == some false)
  | .pushBackValue _ => true

/-- The Widget an accepted call site constructs: emplace_back invokes
the constructor matching its arity directly; push_back of bare
arguments converts implicitly through the one-argument constructor;
push_back of a value inserts that value. -/
def Op.construct : Op → Option Widget
  | .emplaceBack [i] => some (Widget.ctor1 i)
  | .emplaceBack [i, j] => some (Widget.ctor2 i j)
  | .emplaceBack _ => none
  | .pushBackBare [i] => some (Widget.ctor1 i)
  | .pushBackBare _ => none
  | .pushBackValue w => some w

/-- Running one call site on the vector appends the constructed element
at the back. -/
def Op.run (v : List Widget) (op : Op) : List Widget :=
  match op.construct with
  | some w => v ++ [w]
  | none => v

/-- Run a sequence of call sites from left to right. -/
def runOps (v : List Widget) (ops : List Op) : List Widget :=
  ops.foldl Op.run v

/-- The four insertions executed by STLContainer.ExplicitCtrTests, lines
15-23: v.emplace_back(1); v.push_back(1); v.emplace_back(1,2);
v.push_back(Widget(1,2)). -/
def testOps : List Op :=
  [ .emplaceBack [1],
    .pushBackBare [1],
    .emplaceBack [1, 2],
    .pushBackValue (Widget.ctor2 1 2) ]

/-- The commented-out call site of line 20, v.push_back(1,2): two bare
arguments passed to push_back. -/
def rejectedOp : Op := .pushBackBare [1, 2]

/-- The vector after the four insertions, starting from the empty vector
declared at line 14. -/
def finalVector : List Widget := runOps [] testOps

/-- The size check of line 25, ASSERT_EQ(v.size(), 4), run as a test
case. -/
def explicitCtrTest : TestResult :=
  runTestCase [⟨(finalVector.length : Int), 4⟩]

/-! ## Helper lemmas -/

/-- A failure reported by runAsserts starting at index k names an index
at or past k, and the assertion recorded at the relative position is
exactly the failing one, with distinct expected and actual values. -/
theorem runAsserts_failedAt (assertions : List Assertion) :
    ∀ k idx e a, runAsserts k assertions = .failedAt idx e a →
      k ≤ idx ∧ assertions.get? (idx - k) = some ⟨e, a⟩ ∧ e ≠ a := by
  induction assertions with
  | nil =>
      intro k idx e a h
      simp [runAsserts] at h
  | cons hd tl ih =>
      intro k idx e a h
      simp only [runAsserts] at h
      by_cases hp : hd.passes
      · rw [if_pos hp] at h
        obtain ⟨hk, hget, hne⟩ := ih (k + 1) idx e a h
        refine ⟨by omega, ?_, hne⟩
        have hidx : idx - k = (idx - (k + 1)) + 1 := by omega
        rw [hidx]
        simpa using hget
      · rw [if_neg hp] at h
        cases h
        refine ⟨le_refl _, ?_, ?_⟩
        · simp
        · intro he
          apply hp
          simp [Assertion.passes, he]

/-- Each test case result in a suite run depends only on that test case
itself. -/
theorem runSuite_get (suite : List (List Assertion)) (j : Nat) :
    (runSuite suite).get? j = (suite.get? j).map runTestCase := by
  simp [runSuite, List.get?_map]

/-! ## Claims -/

/-- C1: after the four documented insertion operations of
STLContainer.ExplicitCtrTests, the vector holds exactly 4 elements and
the size assertion of line 25 passes. -/
theorem c1_four_elements_size_check_passes :
    finalVector.length = 4 ∧ explicitCtrTest = .passed := by
  constructor <;> rfl

/-- C2: the storage sizes of the four primitive types equal the fixed
expected constants — char is 1 byte, int is 4 bytes, long is 8 bytes,
double is 8 bytes — and all four size assertions of
MemoryTests.TypeSizeAsserts pass. -/
theorem c2_type_sizes :
    sizeofBytes .char = 1 ∧ sizeofBytes .int = 4 ∧
    sizeofBytes .long = 8 ∧ sizeofBytes .double = 8 ∧
    runTestCase typeSizeAsserts = .passed := by
  refine ⟨rfl, rfl, rfl, rfl, rfl⟩

/-- C3: starting from the empty vector, each of the four insertions
increases the size by exactly one: the sizes after the successive
prefixes of the operation sequence are 1, 2, 3 and 4. -/
theorem c3_stepwise_sizes :
    (runOps [] (testOps.take 1)).length = 1 ∧
    (runOps [] (testOps.take 2)).length = 2 ∧
    (runOps [] (testOps.take 3)).length = 3 ∧
    (runOps [] (testOps.take 4)).length = 4 := by
  refine ⟨rfl, rfl, rfl, rfl⟩

/-- C4: emplace_back with two arguments compiles and appends the element
built by the two-argument constructor even though that constructor is
explicit; in general emplace_back is accepted exactly when a constructor
of the matching arity exists, with no regard to its explicit flag. -/
theorem c4_emplace_bypasses_explicit :
    Widget.ctorExplicit 2 = some true ∧
    (Op.emplaceBack [1, 2]).compiles = true ∧
    (∀ v : List Widget, (Op.emplaceBack [1, 2]).run v = v ++ [Widget.ctor2 1 2]) ∧
    (∀ args : List Int,
      (Op.emplaceBack args).compiles = (Widget.ctorExplicit args.length).isSome) := by
  refine ⟨rfl, rfl, fun v => rfl, fun args => rfl⟩

/-- C5: passing two bare arguments to push_back, which would need an
implicit conversion through the explicit two-argument constructor, is
rejected at compile time, and that call site is not among the operations
the test executes. -/
theorem c5_two_bare_args_rejected :
    rejectedOp.compiles = false ∧ rejectedOp ∉ testOps := by
  constructor
  · rfl
  · decide

/-- C6: push_back of a single bare integer compiles because the implicit
conversion goes through the one-argument constructor, which is not
explicit, and it appends the element that constructor builds. -/
theorem c6_single_bare_arg_accepted :
    Widget.ctorExplicit 1 = some false ∧
    (∀ i : Int, (Op.pushBackBare [i]).compiles = true) ∧
    (∀ i : Int, (Op.pushBackBare [i]).construct = some (Widget.ctor1 i)) := by
  refine ⟨rfl, fun i => rfl, fun i => rfl⟩

/-- C7: an assertion mismatch is local to the asserting statement — it
is reported with the concrete expected and actual values of the failing
assertion, and every test case of the suite is still run and judged
solely on its own assertions. -/
theorem c7_failures_local (suite : List (List Assertion))
    (assertions : List Assertion) (idx : Nat) (e a : Int)
    (hfail : runTestCase assertions = .failedAt idx e a) :
    e ≠ a ∧ assertions.get? idx = some ⟨e, a⟩ ∧
    ∀ j, (runSuite suite).get? j = (suite.get? j).map runTestCase := by
  obtain ⟨_, hget, hne⟩ := runAsserts_failedAt assertions 0 idx e a hfail
  exact ⟨hne, by simpa using hget, fun j => runSuite_get suite j⟩

/-- Witness for C7: a concrete suite whose middle test case fails on the
assertion expecting 1 but observing 2; the report carries those values
and the other test cases are judged independently. -/
theorem c7_failures_local_witness :
    (1 : Int) ≠ 2 ∧
    ([⟨1, 2⟩] : List Assertion).get? 0 = some ⟨1, 2⟩ ∧
    (runSuite [[⟨3, 3⟩], [⟨1, 2⟩], [⟨4, 4⟩]]).get? 2 =
      ([[⟨3, 3⟩], [⟨1, 2⟩], [⟨4, 4⟩]].get? 2).map runTestCase := by
  have h := c7_failures_local [[⟨3, 3⟩], [⟨1, 2⟩], [⟨4, 4⟩]]
    [⟨1, 2⟩] 0 1 2 (by decide)
  exact ⟨h.1, h.2.1, h.2.2 2⟩

/-- C8: the one-argument constructor initializes only the first field
and leaves the second uninitialized, so every element inserted through
it — whether by in-place construction or by implicit conversion — has an
indeterminate second field. -/
theorem c8_second_field_uninitialized :
    (∀ i : Int, (Widget.ctor1 i).i_ = i ∧ (Widget.ctor1 i).j_ = none) ∧
    (∀ i : Int, ∃ w : Widget,
      (Op.emplaceBack [i]).construct = some w ∧
      (Op.pushBackBare [i]).construct = some w ∧ w.j_ = none) := by
  refine ⟨fun i => ⟨rfl, rfl⟩, fun i => ⟨Widget.ctor1 i, rfl, rfl, rfl⟩⟩

/-- C9: every operation the test executes is an insertion: it appends
exactly one element at the back, so the size grows by one and every
previously inserted element stays at its original position. -/
theorem c9_all_ops_are_insertions (op : Op) (hop : op ∈ testOps) :
    ∃ w : Widget, ∀ v : List Widget,
      op.run v = v ++ [w] ∧ (op.run v).length = v.length + 1 ∧
      ∀ k, k < v.length → (op.run v).get? k = v.get? k := by
  have hc : op.construct.isSome := by
    fin_cases hop <;> decide
  obtain ⟨w, hw⟩ := Option.isSome_iff_exists.mp hc
  refine ⟨w, fun v => ?_⟩
  have hrun : op.run v = v ++ [w] := by
    simp [Op.run, hw]
  refine ⟨hrun, by simp [hrun], fun k hk => ?_⟩
  rw [hrun]
  exact List.get?_append hk

/-- Witness for C9: the first executed operation, emplace_back(1),
appends one element to the empty vector. -/
theorem c9_all_ops_are_insertions_witness :
    ∃ w : Widget, ∀ v : List Widget,
      (Op.emplaceBack [1]).run v = v ++ [w] ∧
      ((Op.emplaceBack [1]).run v).length = v.length + 1 ∧
      ∀ k, k < v.length → ((Op.emplaceBack [1]).run v).get? k = v.get? k :=
  c9_all_ops_are_insertions (Op.emplaceBack [1]) (by decide)

/-- C10: for any integer argument, in-place construction with one
argument and implicit conversion from the same bare value invoke the
same one-argument constructor and produce elements with equal state. -/
theorem c10_emplace_pushback_same_element :
    ∀ i : Int,
      (Op.emplaceBack [i]).construct = (Op.pushBackBare [i]).construct ∧
      (Op.emplaceBack [i]).construct = some (Widget.ctor1 i) ∧
      (Widget.ctor1 i).i_ = i := by
  exact fun i => ⟨rfl, rfl, rfl⟩
